import Mathlib

/-!
Shallow embedding of `src/deploy.py` (google/chrome-ssh-agent deployment
script) and verification of its specification.

The script performs three sequential HTTP calls: token acquisition
(`getToken`), artifact upload (`upload`), and publication (`publish`),
driven by `main`, which first reads environment variables.

Modelling choices:
* Environment lookup `os.environ[v]` is a partial map `Env`; a missing key
  raises (modelled as `Err.EnvironmentLookupError`).
* An HTTP interaction is modelled by the `Response` the endpoint returns:
  its numeric status code, the relevant parsed JSON fields (`Json`), and
  the raw body text (`text`, used in diagnostic messages).
* Side effects are recorded as an event trace (`Event`): one event per
  network call, plus file open/close events for the artifact file.  The
  Python `with open(...)` block is modelled by `withOpen`, which brackets
  the body's trace with open/close events on every path.
* `requests`' `Response.raise_for_status` raises `HTTPError` exactly for
  status codes in [400, 600); `raiseForStatus` models that.
* Fallible code returns `Except Err`.
-/

namespace Deploy

/-- Observable events of one run: the three network calls and the
artifact-file lifecycle. -/
inductive Event where
  | callToken : Event
  | callUpload : Event
  | callPublish : Event
  | openFile : String → Event
  | closeFile : String → Event
deriving DecidableEq, Repr

/-- The error taxonomy of the script: missing environment variable
(Python `KeyError` from `os.environ`), missing/empty access token,
`requests.HTTPError` from `raise_for_status`, and the two `RuntimeError`s
raised on bad upload/publish response bodies. -/
inductive Err where
  | EnvironmentLookupError : String → Err
  | AuthenticationError : String → Err
  | HttpError : Nat → Err
  | UploadError : String → Err
  | PublishError : String → Err
deriving DecidableEq, Repr

/-- The JSON fields of an endpoint response that `deploy.py` inspects:
`access_token` (token endpoint), `uploadState` (upload endpoint) and
`status` (publish endpoint).  A `none` field is absent from the body. -/
structure Json where
  access_token : Option String := none
  uploadState : Option String := none
  status : Option (List String) := none
deriving DecidableEq, Repr

/-- An HTTP response: status code, parsed JSON body, raw body text. -/
structure Response where
  status_code : Nat
  json : Json
  text : String
deriving DecidableEq, Repr

/-- The execution environment: a partial map of environment variables. -/
def Env : Type := String → Option String

/-- `os.environ[v]`: returns the value or raises a lookup error. -/
def lookupEnv (env : Env) (v : String) : Except Err String :=
  match env v with
  | some s => Except.ok s
  | none => Except.error (Err.EnvironmentLookupError v)

/-- `requests`' `Response.raise_for_status`: raises `HTTPError` exactly
when the status code is a 4xx client error or a 5xx server error. -/
def raiseForStatus (r : Response) : Except Err Unit :=
  if 400 ≤ r.status_code ∧ r.status_code < 600 then
    Except.error (Err.HttpError r.status_code)
  else
    Except.ok ()

/-- `defaultHeaders` from `deploy.py`. -/
def defaultHeaders (token : String) : List (String × String) :=
  [("Authorization", "Bearer " ++ token), ("x-goog-api-version", "2")]

/-- The responses the three endpoints give in one run. -/
structure World where
  tokenResp : Response
  uploadResp : Response
  publishResp : Response
deriving DecidableEq, Repr

/-- `getToken` from `deploy.py`: reads the three credential variables
(building the form body), POSTs to the token endpoint, then checks
`r.json().get('access_token')` with Python truthiness (`if not token:`
fires on the field being absent or the empty string). -/
def getToken (env : Env) (tokenResp : Response) :
    Except Err String × List Event :=
  match lookupEnv env "WEBSTORE_CLIENT_ID" with
  | Except.error e => (Except.error e, [])
  | Except.ok _client_id =>
  match lookupEnv env "WEBSTORE_CLIENT_SECRET" with
  | Except.error e => (Except.error e, [])
  | Except.ok _client_secret =>
  match lookupEnv env "WEBSTORE_REFRESH_TOKEN" with
  | Except.error e => (Except.error e, [])
  | Except.ok _refresh_token =>
    let token := (tokenResp.json.access_token).getD ""
    if token = "" then
      (Except.error (Err.AuthenticationError
        ("Failed to get access token: " ++ tokenResp.text)), [Event.callToken])
    else
      (Except.ok token, [Event.callToken])

/-- The `with open(file_path, 'rb') as f:` block: the body runs inside the
scope and the file is opened before and closed after it on every path,
whether the body succeeds or raises. -/
def withOpen (file_path : String) (body : Except Err Unit × List Event) :
    Except Err Unit × List Event :=
  (body.1, [Event.openFile file_path] ++ body.2 ++ [Event.closeFile file_path])

/-- The response handling inside `upload`: `r.raise_for_status()`, then
`r.json().get('uploadState') != 'SUCCESS'` raises `RuntimeError` with the
raw body in the message. -/
def uploadCheck (r : Response) : Except Err Unit :=
  match raiseForStatus r with
  | Except.error e => Except.error e
  | Except.ok _ =>
    if r.json.uploadState ≠ some "SUCCESS" then
      Except.error (Err.UploadError ("Upload failed: " ++ r.text))
    else
      Except.ok ()

/-- `upload` from `deploy.py`: builds the URL and headers, opens the
artifact for binary read, PUTs it, and checks the response. -/
def upload (token extension_id file_path : String) (r : Response) :
    Except Err Unit × List Event :=
  let _url := "https://www.googleapis.com/upload/chromewebstore/v1.1/items/"
    ++ extension_id
  let _headers := defaultHeaders token
  withOpen file_path (uploadCheck r, [Event.callUpload])

/-- The response handling inside `publish`: `r.raise_for_status()`, then
`statuses = set(r.json().get('status', []))`,
`errors = statuses - frozenset(['OK'])`, raising `RuntimeError` with the
raw body when `errors` is nonempty. -/
def publishCheck (r : Response) : Except Err Unit :=
  match raiseForStatus r with
  | Except.error e => Except.error e
  | Except.ok _ =>
    let statuses : Finset String := (r.json.status.getD []).toFinset
    let errors : Finset String := statuses \ {"OK"}
    if errors ≠ ∅ then
      Except.error (Err.PublishError ("Publish failed: " ++ r.text))
    else
      Except.ok ()

/-- `publish` from `deploy.py`: builds URL, params and headers (adding the
`publishTarget` header), POSTs, and checks the response. -/
def publish (token extension_id publish_target : String) (r : Response) :
    Except Err Unit × List Event :=
  let _url := "https://www.googleapis.com/chromewebstore/v1.1/items/"
    ++ extension_id ++ "/publish"
  let _params := [("uploadType", "media")]
  let _headers := defaultHeaders token ++ [("publishTarget", publish_target)]
  (publishCheck r, [Event.callPublish])

/-- `main` from `deploy.py`: reads `EXTENSION_ID`, `FILE_NAME`,
`PUBLISH_TARGET`, then runs `getToken`, `upload`, `publish` in sequence;
any raised error aborts the rest of the sequence. -/
def main (env : Env) (w : World) : Except Err Unit × List Event :=
  match lookupEnv env "EXTENSION_ID" with
  | Except.error e => (Except.error e, [])
  | Except.ok extension_id =>
  match lookupEnv env "FILE_NAME" with
  | Except.error e => (Except.error e, [])
  | Except.ok file_path =>
  match lookupEnv env "PUBLISH_TARGET" with
  | Except.error e => (Except.error e, [])
  | Except.ok publish_target =>
    let tokenStep := getToken env w.tokenResp
    match tokenStep.1 with
    | Except.error e => (Except.error e, tokenStep.2)
    | Except.ok token =>
      let uploadStep := upload token extension_id file_path w.uploadResp
      match uploadStep.1 with
      | Except.error e => (Except.error e, tokenStep.2 ++ uploadStep.2)
      | Except.ok _ =>
        let publishStep := publish token extension_id publish_target w.publishResp
        (publishStep.1, tokenStep.2 ++ uploadStep.2 ++ publishStep.2)

/-- Whether an event is a network call (as opposed to file handling). -/
def isNetworkCall : Event → Bool
  | Event.callToken => true
  | Event.callUpload => true
  | Event.callPublish => true
  | _ => false

/-- The subsequence of network calls in a trace. -/
def networkCalls (tr : List Event) : List Event :=
  tr.filter isNetworkCall

/-- The six required environment variables. -/
def requiredVars : List String :=
  ["WEBSTORE_CLIENT_ID", "WEBSTORE_CLIENT_SECRET", "WEBSTORE_REFRESH_TOKEN",
   "EXTENSION_ID", "FILE_NAME", "PUBLISH_TARGET"]

/-- A complete environment: every variable is set (to "x"). -/
def envAll : Env := fun _ => some "x"

/-- An environment in which exactly `FILE_NAME` is missing. -/
def envNoFile : Env := fun v => if v = "FILE_NAME" then none else some "x"

/-- A token-endpoint response carrying a non-empty access token. -/
def rTokGood : Response :=
  { status_code := 200, json := { access_token := some "tok" }, text := "tokbody" }

/-- A token-endpoint response with non-2xx status but a valid token. -/
def rTok304 : Response :=
  { status_code := 304, json := { access_token := some "tok" }, text := "tokbody" }

/-- A successful upload-endpoint response. -/
def rUploadGood : Response :=
  { status_code := 200, json := { uploadState := some "SUCCESS" }, text := "upbody" }

/-- An upload-endpoint response with a 5xx status. -/
def r500 : Response :=
  { status_code := 500, json := {}, text := "errbody" }

/-- A successful publish-endpoint response. -/
def rPubOk : Response :=
  { status_code := 200, json := { status := some ["OK"] }, text := "pubbody" }

/-- A 2xx publish-endpoint response whose body has no `status` field. -/
def rPubNoStatus : Response :=
  { status_code := 200, json := {}, text := "pubbody" }

/-- A world in which all three endpoints succeed. -/
def worldOk : World :=
  { tokenResp := rTokGood, uploadResp := rUploadGood, publishResp := rPubOk }

/-- A world in which the upload step fails (bad `uploadState`). -/
def worldUploadFail : World :=
  { tokenResp := rTokGood,
    uploadResp :=
      { status_code := 200, json := { uploadState := some "FAILURE" }, text := "upbody" },
    publishResp := rPubOk }

/-- A world in which token acquisition fails (no `access_token` field). -/
def worldTokenFail : World :=
  { tokenResp := { status_code := 200, json := {}, text := "tokbody" },
    uploadResp := rUploadGood,
    publishResp := rPubOk }

end Deploy

namespace Deploy

/-! ### Helper lemmas -/

/-- A `lookupEnv` error is always an environment-lookup error for the
variable looked up. -/
lemma lookupEnv_error {env : Env} {v : String} {e : Err}
    (h : lookupEnv env v = Except.error e) : e = Err.EnvironmentLookupError v := by
  unfold lookupEnv at h
  cases hv : env v <;> simp [hv] at h
  exact h.symm

/-- `lookupEnv` on a missing variable errors. -/
lemma lookupEnv_none {env : Env} {v : String} (h : env v = none) :
    lookupEnv env v = Except.error (Err.EnvironmentLookupError v) := by
  simp [lookupEnv, h]

/-- `lookupEnv` on a present variable returns it. -/
lemma lookupEnv_some {env : Env} {v s : String} (h : env v = some s) :
    lookupEnv env v = Except.ok s := by
  simp [lookupEnv, h]

/-- The possible outcomes of `getToken`: an environment-lookup failure with
an empty trace, an authentication failure after the call, or a token after
the call. -/
lemma getToken_shape (env : Env) (r : Response) :
    (∃ v, getToken env r = (Except.error (Err.EnvironmentLookupError v), [])) ∨
    (∃ m, getToken env r =
      (Except.error (Err.AuthenticationError m), [Event.callToken])) ∨
    (∃ t, getToken env r = (Except.ok t, [Event.callToken])) := by
  unfold getToken
  cases h1 : lookupEnv env "WEBSTORE_CLIENT_ID" with
  | error e => exact Or.inl ⟨_, by rw [lookupEnv_error h1]⟩
  | ok a =>
  cases h2 : lookupEnv env "WEBSTORE_CLIENT_SECRET" with
  | error e => exact Or.inl ⟨_, by rw [lookupEnv_error h2]⟩
  | ok b =>
  cases h3 : lookupEnv env "WEBSTORE_REFRESH_TOKEN" with
  | error e => exact Or.inl ⟨_, by rw [lookupEnv_error h3]⟩
  | ok c =>
  by_cases ht : (r.json.access_token).getD "" = ""
  · exact Or.inr (Or.inl
      ⟨"Failed to get access token: " ++ r.text, by simp [ht]⟩)
  · exact Or.inr (Or.inr ⟨(r.json.access_token).getD "", by simp [ht]⟩)

/-- The set difference computed by `publishCheck` is empty exactly when
every listed status code is "OK". -/
lemma sdiff_ok_empty_iff (S : List String) :
    (S.toFinset \ {"OK"} = ∅) ↔ ∀ x ∈ S, x = "OK" := by
  simp [Finset.sdiff_eq_empty_iff_subset, Finset.subset_iff]

/-- When the upload response has a 4xx/5xx status or a bad upload state,
`uploadCheck` errors. -/
lemma uploadCheck_fails {r : Response}
    (h : (400 ≤ r.status_code ∧ r.status_code < 600) ∨
      r.json.uploadState ≠ some "SUCCESS") :
    ∃ e, uploadCheck r = Except.error e := by
  unfold uploadCheck raiseForStatus
  by_cases hs : 400 ≤ r.status_code ∧ r.status_code < 600
  · exact ⟨Err.HttpError r.status_code, by simp [hs]⟩
  · rcases h with h | h
    · exact absurd h hs
    · exact ⟨Err.UploadError ("Upload failed: " ++ r.text), by simp [hs, h]⟩

/-- The four possible traces of `main`: nothing (an environment lookup
failed), only the token call (token acquisition failed), token plus a
failed upload (file still closed), or the full successful sequence. -/
lemma main_trace_shape (env : Env) (w : World) :
    (main env w).2 = [] ∨
    (main env w).2 = [Event.callToken] ∨
    (∃ fp, (main env w).2 =
        [Event.callToken, Event.openFile fp, Event.callUpload,
         Event.closeFile fp] ∧
      ∃ e, uploadCheck w.uploadResp = Except.error e) ∨
    (∃ fp, (main env w).2 =
        [Event.callToken, Event.openFile fp, Event.callUpload,
         Event.closeFile fp, Event.callPublish] ∧
      uploadCheck w.uploadResp = Except.ok ()) := by
  unfold main
  cases h1 : lookupEnv env "EXTENSION_ID" with
  | error e => exact Or.inl rfl
  | ok eid =>
  cases h2 : lookupEnv env "FILE_NAME" with
  | error e => exact Or.inl rfl
  | ok fp =>
  cases h3 : lookupEnv env "PUBLISH_TARGET" with
  | error e => exact Or.inl rfl
  | ok pt =>
  rcases getToken_shape env w.tokenResp with ⟨v, hg⟩ | ⟨m, hg⟩ | ⟨t, hg⟩
  · exact Or.inl (by simp [hg])
  · exact Or.inr (Or.inl (by simp [hg]))
  · cases hu : uploadCheck w.uploadResp with
    | error e =>
      refine Or.inr (Or.inr (Or.inl ⟨fp, ?_, e, rfl⟩))
      simp [hg, upload, withOpen, hu]
    | ok u =>
      refine Or.inr (Or.inr (Or.inr ⟨fp, ?_, rfl⟩))
      simp [hg, upload, withOpen, publish, hu]

/-- `getToken` fails with a lookup error (making no call) when one of the
three credential variables is missing. -/
lemma getToken_env_error (env : Env) (r : Response)
    (h : env "WEBSTORE_CLIENT_ID" = none ∨ env "WEBSTORE_CLIENT_SECRET" = none ∨
      env "WEBSTORE_REFRESH_TOKEN" = none) :
    ∃ u, getToken env r = (Except.error (Err.EnvironmentLookupError u), []) := by
  unfold getToken
  rcases h with h | h | h
  · exact ⟨"WEBSTORE_CLIENT_ID", by simp [lookupEnv_none h]⟩
  · cases h1 : lookupEnv env "WEBSTORE_CLIENT_ID" with
    | error e =>
      exact ⟨"WEBSTORE_CLIENT_ID", by rw [lookupEnv_error h1]⟩
    | ok a => exact ⟨"WEBSTORE_CLIENT_SECRET", by simp [lookupEnv_none h]⟩
  · cases h1 : lookupEnv env "WEBSTORE_CLIENT_ID" with
    | error e =>
      exact ⟨"WEBSTORE_CLIENT_ID", by rw [lookupEnv_error h1]⟩
    | ok a =>
      cases h2 : lookupEnv env "WEBSTORE_CLIENT_SECRET" with
      | error e =>
        exact ⟨"WEBSTORE_CLIENT_SECRET", by rw [lookupEnv_error h2]⟩
      | ok b => exact ⟨"WEBSTORE_REFRESH_TOKEN", by simp [lookupEnv_none h]⟩

/-- When any of the six required variables is missing, `main` fails with a
lookup error and produces an empty trace. -/
lemma main_env_error (env : Env) (w : World)
    (h : env "EXTENSION_ID" = none ∨ env "FILE_NAME" = none ∨
      env "PUBLISH_TARGET" = none ∨ env "WEBSTORE_CLIENT_ID" = none ∨
      env "WEBSTORE_CLIENT_SECRET" = none ∨ env "WEBSTORE_REFRESH_TOKEN" = none) :
    (∃ u, (main env w).1 = Except.error (Err.EnvironmentLookupError u)) ∧
    (main env w).2 = [] := by
  unfold main
  cases h1 : lookupEnv env "EXTENSION_ID" with
  | error e => exact ⟨⟨"EXTENSION_ID", by rw [lookupEnv_error h1]⟩, rfl⟩
  | ok eid =>
  cases h2 : lookupEnv env "FILE_NAME" with
  | error e => exact ⟨⟨"FILE_NAME", by rw [lookupEnv_error h2]⟩, rfl⟩
  | ok fp =>
  cases h3 : lookupEnv env "PUBLISH_TARGET" with
  | error e => exact ⟨⟨"PUBLISH_TARGET", by rw [lookupEnv_error h3]⟩, rfl⟩
  | ok pt =>
  have hcred : env "WEBSTORE_CLIENT_ID" = none ∨
      env "WEBSTORE_CLIENT_SECRET" = none ∨
      env "WEBSTORE_REFRESH_TOKEN" = none := by
    rcases h with h | h | h | h | h | h
    · have := lookupEnv_none h
      rw [h1] at this
      cases this
    · have := lookupEnv_none h
      rw [h2] at this
      cases this
    · have := lookupEnv_none h
      rw [h3] at this
      cases this
    · exact Or.inl h
    · exact Or.inr (Or.inl h)
    · exact Or.inr (Or.inr h)
  obtain ⟨u, hg⟩ := getToken_env_error env w.tokenResp hcred
  exact ⟨⟨u, by simp [hg]⟩, by simp [hg]⟩

end Deploy

namespace Deploy

/-! ### Claim theorems -/

/-- C1: when all three remote calls succeed (token endpoint returns a
non-empty access token, upload endpoint returns 2xx with uploadState
SUCCESS, publish endpoint returns 2xx with only OK status codes), `main`
performs exactly one token call, one upload call and one publish call, in
that order, and succeeds (exit status 0). -/
theorem main_success_calls_in_order (env : Env) (w : World)
    (eid fp pt a b c t : String)
    (hex : env "EXTENSION_ID" = some eid)
    (hfn : env "FILE_NAME" = some fp)
    (hpt : env "PUBLISH_TARGET" = some pt)
    (hc1 : env "WEBSTORE_CLIENT_ID" = some a)
    (hc2 : env "WEBSTORE_CLIENT_SECRET" = some b)
    (hc3 : env "WEBSTORE_REFRESH_TOKEN" = some c)
    (htok : w.tokenResp.json.access_token = some t) (hne : t ≠ "")
    (hup : 200 ≤ w.uploadResp.status_code ∧ w.uploadResp.status_code < 300)
    (hus : w.uploadResp.json.uploadState = some "SUCCESS")
    (hpub : 200 ≤ w.publishResp.status_code ∧ w.publishResp.status_code < 300)
    (hok : ∀ x ∈ (w.publishResp.json.status).getD [], x = "OK") :
    (main env w).1 = Except.ok () ∧
    networkCalls (main env w).2 =
      [Event.callToken, Event.callUpload, Event.callPublish] := by
  have hu600 : ¬(400 ≤ w.uploadResp.status_code ∧ w.uploadResp.status_code < 600) := by
    omega
  have hp600 : ¬(400 ≤ w.publishResp.status_code ∧ w.publishResp.status_code < 600) := by
    omega
  have hps : ((w.publishResp.json.status).getD []).toFinset \ {"OK"} = ∅ :=
    (sdiff_ok_empty_iff _).mpr hok
  have hmain : main env w = (Except.ok (),
      [Event.callToken, Event.openFile fp, Event.callUpload, Event.closeFile fp,
       Event.callPublish]) := by
    simp [main, lookupEnv, hex, hfn, hpt, getToken, hc1, hc2, hc3, htok, hne,
      upload, withOpen, uploadCheck, raiseForStatus, hu600, hus,
      publish, publishCheck, hp600, hps]
  rw [hmain]
  exact ⟨rfl, rfl⟩

/-- C1 witness: a fully populated environment and three successful mocked
responses give exit 0 and the three calls in order. -/
theorem main_success_calls_in_order_witness :
    (main envAll worldOk).1 = Except.ok () ∧
    networkCalls (main envAll worldOk).2 =
      [Event.callToken, Event.callUpload, Event.callPublish] :=
  main_success_calls_in_order envAll worldOk "x" "x" "x" "x" "x" "x" "tok"
    rfl rfl rfl rfl rfl rfl rfl (by decide) (by decide) rfl (by decide)
    (by decide)

/-- C2: a failure at any step prevents every later step from being
attempted: if the token step fails (with any error), neither the upload
nor the publish endpoint is ever called; and if the upload step fails
(4xx/5xx status, or an uploadState other than SUCCESS), the publish
endpoint is never called. -/
theorem failure_blocks_later_steps (env : Env) (w : World) :
    ((∃ e, (getToken env w.tokenResp).1 = Except.error e) →
      Event.callUpload ∉ (main env w).2 ∧
      Event.callPublish ∉ (main env w).2) ∧
    (((400 ≤ w.uploadResp.status_code ∧ w.uploadResp.status_code < 600) ∨
        w.uploadResp.json.uploadState ≠ some "SUCCESS") →
      Event.callPublish ∉ (main env w).2) := by
  constructor
  · rintro ⟨e, he⟩
    unfold main
    cases h1 : lookupEnv env "EXTENSION_ID" with
    | error e1 => simp
    | ok eid =>
    cases h2 : lookupEnv env "FILE_NAME" with
    | error e2 => simp
    | ok fp =>
    cases h3 : lookupEnv env "PUBLISH_TARGET" with
    | error e3 => simp
    | ok pt =>
      rcases getToken_shape env w.tokenResp with ⟨v, hg⟩ | ⟨m, hg⟩ | ⟨t, hg⟩
      · simp [hg]
      · simp [hg]
      · rw [hg] at he
        simp at he
  · intro h
    rcases main_trace_shape env w with ht | ht | ⟨fp, ht, -⟩ | ⟨fp, ht, hok⟩
    · simp [ht]
    · simp [ht]
    · simp [ht]
    · obtain ⟨e, he⟩ := uploadCheck_fails h
      rw [hok] at he
      simp at he

/-- C2 witness: with a token response carrying no access token, neither
upload nor publish is called; with a failing upload response, no publish
call appears in the trace. -/
theorem failure_blocks_later_steps_witness :
    (Event.callUpload ∉ (main envAll worldTokenFail).2 ∧
     Event.callPublish ∉ (main envAll worldTokenFail).2) ∧
    Event.callPublish ∉ (main envAll worldUploadFail).2 :=
  ⟨(failure_blocks_later_steps envAll worldTokenFail).1 ⟨_, rfl⟩,
   (failure_blocks_later_steps envAll worldUploadFail).2 (Or.inr (by decide))⟩

/-- C3: with the credential variables present, `getToken` returns the
token exactly when the response body carries a non-empty `access_token`,
and otherwise fails with an authentication error whose message carries the
raw response body. -/
theorem getToken_access_token_spec (env : Env) (r : Response) (a b c : String)
    (h1 : env "WEBSTORE_CLIENT_ID" = some a)
    (h2 : env "WEBSTORE_CLIENT_SECRET" = some b)
    (h3 : env "WEBSTORE_REFRESH_TOKEN" = some c) :
    (∀ t, t ≠ "" → r.json.access_token = some t →
      (getToken env r).1 = Except.ok t) ∧
    ((r.json.access_token = none ∨ r.json.access_token = some "") →
      (getToken env r).1 = Except.error (Err.AuthenticationError
        ("Failed to get access token: " ++ r.text))) := by
  constructor
  · intro t ht hat
    simp [getToken, lookupEnv_some h1, lookupEnv_some h2, lookupEnv_some h3,
      hat, ht]
  · rintro (hat | hat) <;>
      simp [getToken, lookupEnv_some h1, lookupEnv_some h2, lookupEnv_some h3,
        hat]

/-- C3 witness: a token response with access_token "tok" yields "tok". -/
theorem getToken_access_token_spec_witness :
    (getToken envAll rTokGood).1 = Except.ok "tok" :=
  (getToken_access_token_spec envAll rTokGood "x" "x" "x" rfl rfl rfl).1 "tok"
    (by decide) rfl

/-- C4: for a 2xx upload response, `upload` succeeds exactly when
`uploadState` is SUCCESS, and otherwise fails with an upload error whose
message carries the raw response body. -/
theorem upload_2xx_success_iff (tok eid fp : String) (r : Response)
    (h : 200 ≤ r.status_code ∧ r.status_code < 300) :
    ((upload tok eid fp r).1 = Except.ok () ↔
      r.json.uploadState = some "SUCCESS") ∧
    (r.json.uploadState ≠ some "SUCCESS" →
      (upload tok eid fp r).1 = Except.error
        (Err.UploadError ("Upload failed: " ++ r.text))) := by
  have hns : ¬(400 ≤ r.status_code ∧ r.status_code < 600) := by omega
  constructor
  · constructor
    · intro hok
      by_contra hus
      simp [upload, withOpen, uploadCheck, raiseForStatus, hns, hus] at hok
    · intro hus
      simp [upload, withOpen, uploadCheck, raiseForStatus, hns, hus]
  · intro hus
    simp [upload, withOpen, uploadCheck, raiseForStatus, hns, hus]

/-- C4 witness: a 200 response with uploadState SUCCESS succeeds. -/
theorem upload_2xx_success_iff_witness :
    (upload "t" "e" "f" rUploadGood).1 = Except.ok () :=
  (upload_2xx_success_iff "t" "e" "f" rUploadGood (by decide)).1.mpr rfl

end Deploy

namespace Deploy

/-- C5 counterexample: a 304 response is not 2xx, yet `upload` does not
fail with an HttpError there — `raise_for_status` only raises for 4xx/5xx,
so the JSON body IS inspected and the failure (if any) is an UploadError.
Here the body has uploadState FAILURE and upload raises UploadError, not
HttpError, refuting the claim for the status 304. -/
theorem upload_304_not_HttpError_cex :
    ¬(200 ≤ (304 : Nat) ∧ (304 : Nat) < 300) ∧
    (upload "t" "e" "f"
      { status_code := 304, json := { uploadState := some "FAILURE" },
        text := "body" }).1 =
      Except.error (Err.UploadError ("Upload failed: " ++ "body")) :=
  ⟨by decide, rfl⟩

/-- C5 amended: for every upload- or publish-endpoint response with a 4xx
or 5xx HTTP status, the operation fails with an HttpError propagated to
the caller (and, the result being fixed by the status alone, the JSON body
is not inspected for a success marker). -/
theorem http_4xx_5xx_raises (tok eid fp pt : String) (r : Response)
    (h : 400 ≤ r.status_code ∧ r.status_code < 600) :
    (upload tok eid fp r).1 = Except.error (Err.HttpError r.status_code) ∧
    (publish tok eid pt r).1 = Except.error (Err.HttpError r.status_code) := by
  constructor <;>
    simp [upload, withOpen, uploadCheck, publish, publishCheck,
      raiseForStatus, h]

/-- C5 amended witness: a 500 response raises HttpError in both steps. -/
theorem http_4xx_5xx_raises_witness :
    (upload "t" "e" "f" r500).1 = Except.error (Err.HttpError 500) ∧
    (publish "t" "e" "p" r500).1 = Except.error (Err.HttpError 500) :=
  http_4xx_5xx_raises "t" "e" "f" "p" r500 (by decide)

/-- C6: for a 2xx publish response whose body has a `status` collection S,
`publish` succeeds exactly when every code in S is "OK" (so the empty
collection and duplicated "OK"s succeed), and fails with a PublishError
carrying the raw response body when any other code is present. -/
theorem publish_status_subset_ok (tok eid pt : String) (r : Response)
    (S : List String)
    (h : 200 ≤ r.status_code ∧ r.status_code < 300)
    (hS : r.json.status = some S) :
    ((publish tok eid pt r).1 = Except.ok () ↔ ∀ x ∈ S, x = "OK") ∧
    ((∃ x ∈ S, x ≠ "OK") →
      (publish tok eid pt r).1 = Except.error
        (Err.PublishError ("Publish failed: " ++ r.text))) := by
  have hns : ¬(400 ≤ r.status_code ∧ r.status_code < 600) := by omega
  constructor
  · by_cases hall : ∀ x ∈ S, x = "OK"
    · have he : S.toFinset \ {"OK"} = ∅ := (sdiff_ok_empty_iff S).mpr hall
      simp only [publish, publishCheck, raiseForStatus]
      simp [hns, hS, he]
      exact hall
    · have he : ¬(S.toFinset \ {"OK"} = ∅) := fun hh =>
        hall ((sdiff_ok_empty_iff S).mp hh)
      simp [publish, publishCheck, raiseForStatus, hns, hS, he, hall]
  · rintro ⟨x, hx, hxok⟩
    have he : ¬(S.toFinset \ {"OK"} = ∅) := by
      intro hh
      exact hxok ((sdiff_ok_empty_iff S).mp hh x hx)
    simp [publish, publishCheck, raiseForStatus, hns, hS, he]

/-- C6 witness: a 200 publish response with status ["OK"] succeeds. -/
theorem publish_status_subset_ok_witness :
    (publish "t" "e" "p" rPubOk).1 = Except.ok () :=
  (publish_status_subset_ok "t" "e" "p" rPubOk ["OK"] (by decide) rfl).1.mpr
    (by decide)

/-- C7: if any one of the six required environment variables is missing,
`main` fails with an environment-lookup error and its trace is empty, so
no network call is ever made. -/
theorem missing_env_aborts_before_network (env : Env) (w : World) (v : String)
    (hv : v ∈ requiredVars) (h : env v = none) :
    (∃ u, (main env w).1 = Except.error (Err.EnvironmentLookupError u)) ∧
    (main env w).2 = [] := by
  fin_cases hv
  · exact main_env_error env w (Or.inr (Or.inr (Or.inr (Or.inl h))))
  · exact main_env_error env w
      (Or.inr (Or.inr (Or.inr (Or.inr (Or.inl h)))))
  · exact main_env_error env w
      (Or.inr (Or.inr (Or.inr (Or.inr (Or.inr h)))))
  · exact main_env_error env w (Or.inl h)
  · exact main_env_error env w (Or.inr (Or.inl h))
  · exact main_env_error env w (Or.inr (Or.inr (Or.inl h)))

/-- C7 witness: an environment missing exactly FILE_NAME gives a lookup
error and an empty trace. -/
theorem missing_env_aborts_before_network_witness :
    (∃ u, (main envNoFile worldOk).1 =
      Except.error (Err.EnvironmentLookupError u)) ∧
    (main envNoFile worldOk).2 = [] :=
  missing_env_aborts_before_network envNoFile worldOk "FILE_NAME" (by decide)
    (by decide)

/-- C8: on every exit path of `upload` — success, 4xx/5xx status, or
failed uploadState check — the artifact file is opened and then closed:
the trace is openFile, then the request, then closeFile, whatever the
response. -/
theorem upload_file_closed_every_path (tok eid fp : String) (r : Response) :
    ∃ mid, (upload tok eid fp r).2 =
      [Event.openFile fp] ++ mid ++ [Event.closeFile fp] :=
  ⟨[Event.callUpload], rfl⟩

/-- C9: a 2xx publish response whose body has no `status` field at all is
treated as an empty collection: `publish` succeeds. -/
theorem publish_missing_status_succeeds (tok eid pt : String) (r : Response)
    (h : 200 ≤ r.status_code ∧ r.status_code < 300)
    (hS : r.json.status = none) :
    (publish tok eid pt r).1 = Except.ok () := by
  have hns : ¬(400 ≤ r.status_code ∧ r.status_code < 600) := by omega
  simp [publish, publishCheck, raiseForStatus, hns, hS]

/-- C9 witness: a 200 publish response with no status field succeeds. -/
theorem publish_missing_status_succeeds_witness :
    (publish "t" "e" "p" rPubNoStatus).1 = Except.ok () :=
  publish_missing_status_succeeds "t" "e" "p" rPubNoStatus (by decide) rfl

/-- C10: `getToken` never looks at the HTTP status code: its result is
unchanged under any status code, it never fails with an HttpError, and a
non-2xx token response carrying a non-empty access token still yields that
token. -/
theorem getToken_ignores_http_status (env : Env) (r : Response) :
    (∀ s, getToken env { r with status_code := s } = getToken env r) ∧
    (∀ s, (getToken env r).1 ≠ Except.error (Err.HttpError s)) ∧
    (∀ t a b c, env "WEBSTORE_CLIENT_ID" = some a →
      env "WEBSTORE_CLIENT_SECRET" = some b →
      env "WEBSTORE_REFRESH_TOKEN" = some c →
      t ≠ "" → r.json.access_token = some t →
      ¬(200 ≤ r.status_code ∧ r.status_code < 300) →
      (getToken env r).1 = Except.ok t) := by
  refine ⟨fun s => rfl, fun s => ?_, ?_⟩
  · rcases getToken_shape env r with ⟨v, hg⟩ | ⟨m, hg⟩ | ⟨t, hg⟩ <;>
      simp [hg]
  · intro t a b c h1 h2 h3 ht hat _h
    simp [getToken, lookupEnv_some h1, lookupEnv_some h2, lookupEnv_some h3,
      hat, ht]

/-- C10 witness: a 304 token response with access_token "tok" still
returns "tok". -/
theorem getToken_ignores_http_status_witness :
    (getToken envAll rTok304).1 = Except.ok "tok" :=
  (getToken_ignores_http_status envAll rTok304).2.2 "tok" "x" "x" "x"
    rfl rfl rfl (by decide) rfl (by decide)

end Deploy
